import Mathlib

/-!
Shallow embedding of the asynchronous render-job pipeline of
`main_ui.py` (LRC-Video-Generator): the progress relay
(`QtProglogLogger`), the background workers (`AudioInfoWorker`,
`VideoWorker`, `PreviewWorker`), parameter compilation
(`MainWindow._gather_parameters`), project save/load
(`MainWindow.save_project` / `load_project` / `_set_combo_text`), and
terminal-result classification (`MainWindow.generation_finished`).

External effects (the filesystem, the subprocess call, the engine call,
pixmap decoding) are modelled as explicit inputs; Qt signal emissions
are modelled as returned values.
-/

namespace LrcVideo

/-- State of `QtProglogLogger` (main_ui.py lines 23-33): the only state
the relay keeps is `_last_percent`, initialized to `-1` in `__init__`. -/
structure QtProglogLogger where
  last_percent : Int
deriving Repr, DecidableEq

/-- `QtProglogLogger.__init__`: `self._last_percent = -1`. -/
def QtProglogLogger.init : QtProglogLogger := { last_percent := -1 }

/-- `QtProglogLogger.progress_update` (lines 30-33):
`if percent > self._last_percent: emit percent; self._last_percent = percent`.
Returns the updated state and `some percent` when the value was emitted
downstream, `none` when it was suppressed. -/
def progress_update (st : QtProglogLogger) (percent : Int) :
    QtProglogLogger × Option Int :=
  if percent > st.last_percent then ({ last_percent := percent }, some percent)
  else (st, none)

/-- The list of percent values the relay forwards downstream when
`progress_update` is called once for each element of `ps` in order,
starting from relay state `st`. -/
def deliveredFrom (st : QtProglogLogger) : List Int → List Int
  | [] => []
  | p :: ps =>
    match progress_update st p with
    | (st1, some q) => q :: deliveredFrom st1 ps
    | (st1, none) => deliveredFrom st1 ps

/-- One job's delivered progress sequence: `VideoWorker.run` (line 71) and
`PreviewWorker.run` (line 89) each construct `QtProglogLogger(self)` fresh,
so a job's relay starts at `last_percent = -1`. -/
def jobDelivered (ps : List Int) : List Int :=
  deliveredFrom QtProglogLogger.init ps

/-- Two sequential jobs (e.g. two runs of `VideoWorker.run`): each run
executes `logger = QtProglogLogger(self)`, so each job gets its own
fresh relay; the pair of delivered sequences. -/
def twoSequentialJobsDelivered (ps1 ps2 : List Int) : List Int × List Int :=
  (deliveredFrom QtProglogLogger.init ps1, deliveredFrom QtProglogLogger.init ps2)

/-- Outcome of the external engine call (`create_karaoke_video` /
`create_preview_frame`): `Except.error e` models the call raising an
exception whose formatted text (`f"{e}"`) is `e`. -/
abbrev EngineOutcome := Except String Unit

/-- `VideoWorker.run` (main_ui.py lines 69-77): calls the engine inside
`try`; on normal return emits the success message, on any exception `e`
emits `f"发生错误: {e}"`. The returned string is the single terminal
message delivered via the `finished` signal; the function is total, so
no exception escapes the job boundary. -/
def VideoWorker.run (engine : EngineOutcome) : String :=
  match engine with
  | .ok _ => "成功！视频已生成。"
  | .error e => "发生错误: " ++ e

/-- Environment of one `PreviewWorker.run` execution (lines 87-105):
the engine call's outcome, the state of the output image file right
after the call (`os.path.exists` / `os.path.getsize`), and whether
`QPixmap(output_path)` decodes to a null pixmap. -/
structure PreviewEnv where
  engine : EngineOutcome
  outputExists : Bool
  outputSize : Nat
  pixmapNull : Bool
deriving Repr

/-- Terminal result emitted by `PreviewWorker.finished`: whether the
emitted pixmap is the null `QPixmap()` and the emitted error string. -/
structure PreviewResult where
  pixmapNull : Bool
  errorMessage : String
deriving Repr, DecidableEq

/-- `PreviewWorker.run` (lines 87-105): after `create_preview_frame`
returns, a missing or zero-byte output file raises
`FileNotFoundError("FFmpeg未能成功创建预览图片。")`, which the enclosing
`except` turns into `f"生成预览时发生错误: {e}"` with a null pixmap; a
null decoded pixmap emits its own message; otherwise the pixmap is
emitted with an empty error string. Total: no exception escapes. -/
def PreviewWorker.run (env : PreviewEnv) : PreviewResult :=
  match env.engine with
  | .error e => { pixmapNull := true, errorMessage := "生成预览时发生错误: " ++ e }
  | .ok _ =>
    if !env.outputExists || env.outputSize == 0 then
      { pixmapNull := true,
        errorMessage := "生成预览时发生错误: " ++ "FFmpeg未能成功创建预览图片。" }
    else if env.pixmapNull then
      { pixmapNull := true, errorMessage := "生成的预览图片无效或无法加载。" }
    else
      { pixmapNull := false, errorMessage := "" }

/-- `MainWindow.on_preview_finished` (lines 397-403) branches on the
Python truthiness of `error_message`: a non-empty error string is
reported as a failure, an empty one as success. -/
def on_preview_finished_is_failure (r : PreviewResult) : Bool :=
  r.errorMessage ≠ ""

/-- `MainWindow.on_preview_finished` (lines 410-414): after either
branch, `if self.preview_image_path and os.path.exists(path):
os.remove(path)`. Models whether the scratch artifact still exists
afterwards, with `os.remove` modelled as succeeding; `previewPath` is
the truthiness of `self.preview_image_path` (a non-empty path set by
`generate_preview` before the worker starts). -/
def on_preview_finished_fileExistsAfter (previewPathTruthy : Bool)
    (fileExists : Bool) : Bool :=
  if previewPathTruthy && fileExists then false else fileExists

/-- Python substring containment on explicit character lists
(`pat in s` ⟺ some suffix of `s` has `pat` as a prefix). -/
def charListHasSub : List Char → List Char → Bool
  | [], pat => pat.isPrefixOf ([] : List Char)
  | c :: t, pat => pat.isPrefixOf (c :: t) || charListHasSub t pat

/-- `MainWindow.generation_finished` (lines 593-603):
`is_success = "成功" in message`; the only input consulted is the
terminal message text — there is no separate status code. Returns the
classification and the progress-bar value it sets (100 or 0). -/
def generation_finished (message : String) : Bool × Int :=
  let is_success := charListHasSub message.data "成功".data
  if is_success then (true, 100) else (false, 0)

/-- In-memory UI state read by `_gather_parameters`, `save_project` and
`load_project`: the three asset paths (`self.file_paths`), the two font
combo texts, the two font-size spin values, the three color values held
in `QSettings`, the outline-width spin value, the engine path, the
three animation combo texts and the hardware-acceleration combo text. -/
structure AppState where
  audio : String
  cover : String
  lrc : String
  font_primary : String
  font_secondary : String
  font_size_primary : Int
  font_size_secondary : Int
  color_primary : String
  color_secondary : String
  outline_color : String
  outline_width : Int
  ffmpeg_path : String
  background_anim : String
  text_anim : String
  cover_anim : String
  hw_accel : String
deriving Repr, DecidableEq

/-- The parameter dict built at main_ui.py lines 352-368 (the render
flavor; `output_path`/`hw_accel` resp. `output_image_path`/
`preview_time` are added by the callers afterwards). -/
structure JobParameters where
  audio_path : String
  cover_path : String
  lrc_path : String
  font_primary : String
  font_size_primary : Int
  font_secondary : String
  font_size_secondary : Int
  color_primary : String
  color_secondary : String
  outline_color : String
  outline_width : Int
  background_anim : String
  text_anim : String
  cover_anim : String
  ffmpeg_path : String
deriving Repr, DecidableEq

/-- Outcome of `MainWindow._gather_parameters` (lines 335-368):
either the `QMessageBox.warning` naming the first invalid asset file,
the `QMessageBox.critical` naming the font directory, or the fully
populated parameter record (`None` returns are represented by the two
failure constructors together with the message they showed). -/
inductive GatherOutcome where
  | warnInvalid (desc : String)
  | fontError (font_dir : String)
  | params (p : JobParameters)
deriving Repr, DecidableEq

/-- Text of the asset-file warning: `f"请先选择一个有效的 {desc} 文件！"`. -/
def invalid_file_warning (desc : String) : String :=
  "请先选择一个有效的 " ++ desc ++ " 文件！"

/-- Text of the font error:
`f"请在 '{self.font_dir}' 文件夹中放置字体文件，并在此处选择它们。"`. -/
def font_error_message (font_dir : String) : String :=
  "请在 \x27" ++ font_dir ++ "\x27 文件夹中放置字体文件，并在此处选择它们。"

/-- `MainWindow._gather_parameters` (lines 335-368). The asset dict is
iterated in insertion order `audio, cover, lrc` (descriptions
`音频/封面/歌词`); a path fails when it is falsy (`not path`) or
`os.path.exists` is false (`fs` models the filesystem). Then both font
combo texts are checked at once. `font_dir` is `self.font_dir`; a font
parameter is `str(self.font_dir / file)` (POSIX join). -/
def gather_parameters (font_dir : String) (st : AppState)
    (fs : String → Bool) : GatherOutcome :=
  if st.audio = "" ∨ fs st.audio = false then .warnInvalid "音频"
  else if st.cover = "" ∨ fs st.cover = false then .warnInvalid "封面"
  else if st.lrc = "" ∨ fs st.lrc = false then .warnInvalid "歌词"
  else if st.font_primary = "" ∨ st.font_secondary = "" then .fontError font_dir
  else .params {
    audio_path := st.audio
    cover_path := st.cover
    lrc_path := st.lrc
    font_primary := font_dir ++ "/" ++ st.font_primary
    font_size_primary := st.font_size_primary
    font_secondary := font_dir ++ "/" ++ st.font_secondary
    font_size_secondary := st.font_size_secondary
    color_primary := st.color_primary
    color_secondary := st.color_secondary
    outline_color := st.outline_color
    outline_width := st.outline_width
    background_anim := st.background_anim
    text_anim := st.text_anim
    cover_anim := st.cover_anim
    ffmpeg_path := st.ffmpeg_path }

/-- `MainWindow.start_generation` (lines 561-591): returns the data the
`VideoWorker` is started with (parameters, output path, hardware
acceleration), or `none` when the method returns before
`VideoWorker(params)` is created — i.e. when `check_ffmpeg` fails, when
`_gather_parameters` returns `None`, or when the save dialog is
cancelled. The engine (`create_karaoke_video`) is invoked only inside a
started worker. -/
def start_generation (ffmpegOk : Bool) (font_dir : String) (st : AppState)
    (fs : String → Bool) (outputDialog : Option String) :
    Option (JobParameters × String × String) :=
  if ffmpegOk = false then none
  else
    match gather_parameters font_dir st fs with
    | .params p =>
      match outputDialog with
      | some output_path => some (p, output_path, st.hw_accel)
      | none => none
    | _ => none

/-- The `file_paths` object of a project document (`.kproj` JSON):
each asset key may be absent. -/
structure FilePathsDoc where
  audio : Option String
  cover : Option String
  lrc : Option String
deriving Repr, DecidableEq

/-- The `settings` object of a project document: each key may be
absent. -/
structure SettingsDoc where
  font_primary : Option String
  font_secondary : Option String
  font_size_primary : Option Int
  font_size_secondary : Option Int
  color_primary : Option String
  color_secondary : Option String
  outline_color : Option String
  outline_width : Option Int
  ffmpeg_path : Option String
  background_anim : Option String
  text_anim : Option String
  cover_anim : Option String
  hw_accel : Option String
deriving Repr, DecidableEq

/-- A parsed project document: `version`, `file_paths`, `settings`,
any of which may be absent. -/
structure ProjectDocument where
  version : Option ℚ
  file_paths : Option FilePathsDoc
  settings : Option SettingsDoc
deriving Repr, DecidableEq

/-- `project_data.get("file_paths", {})` fallback. -/
def emptyFilePathsDoc : FilePathsDoc := ⟨none, none, none⟩

/-- `project_data.get("settings", {})` fallback. -/
def emptySettingsDoc : SettingsDoc :=
  ⟨none, none, none, none, none, none, none, none, none, none, none, none,
   none⟩

/-- `MainWindow.save_project` (lines 430-451): writes `version: 3.0`,
the whole `self.file_paths` mapping, and every settings field. -/
def save_project (st : AppState) : ProjectDocument :=
  { version := some 3
    file_paths := some ⟨some st.audio, some st.cover, some st.lrc⟩
    settings := some
      { font_primary := some st.font_primary
        font_secondary := some st.font_secondary
        font_size_primary := some st.font_size_primary
        font_size_secondary := some st.font_size_secondary
        color_primary := some st.color_primary
        color_secondary := some st.color_secondary
        outline_color := some st.outline_color
        outline_width := some st.outline_width
        ffmpeg_path := some st.ffmpeg_path
        background_anim := some st.background_anim
        text_anim := some st.text_anim
        cover_anim := some st.cover_anim
        hw_accel := some st.hw_accel } }

/-- The item lists of the six catalog-backed combo boxes: the three
animation catalogs (`BACKGROUND_ANIMATIONS` / `TEXT_ANIMATIONS` /
`COVER_ANIMATIONS` keys), the fixed hardware-acceleration list
(line 260), and the font-file list added to both font combos by
`populate_fonts` (lines 616-619). -/
structure Catalogs where
  bg : List String
  text : List String
  cover : List String
  hw : List String
  fonts : List String

/-- `MainWindow._set_combo_text` (lines 500-502):
`if text and combo.findText(text) > -1: combo.setCurrentText(text)` —
the selection changes only when the supplied value is truthy and is one
of the combo's items; otherwise the current selection is kept and no
error is raised. -/
def set_combo_text (items : List String) (current : String)
    (text : Option String) : String :=
  match text with
  | some t => if t ≠ "" ∧ t ∈ items then t else current
  | none => current

/-- `QSpinBox.setValue`: the widget clamps the supplied value to its
configured range (`setRange`). -/
def spin_setValue (lo hi v : Int) : Int := max lo (min hi v)

/-- The walrus-guarded overwrites of `load_project`
(`if color_val := s.get(key): ...`, `if ffmpeg_path_val := ...`): a
truthy (present and non-empty) value overwrites, anything else keeps
the current value. -/
def truthy_overwrite (current : String) (v : Option String) : String :=
  match v with
  | some c => if c ≠ "" then c else current
  | none => current

/-- `MainWindow.load_project` (lines 462-496), the state transformation
on a successfully parsed document: `self.file_paths` is replaced
wholesale by `project_data.get("file_paths", {})` (line edits show
`get(key, "")`); the six catalog combos go through `_set_combo_text`;
the spin boxes get `s.get(key, default)` with defaults 56/48/3; colors
and the engine path are overwritten only when truthy. Font-size spins
have range 10-300, the outline spin 0-20. -/
def load_project (cat : Catalogs) (doc : ProjectDocument) (st : AppState) :
    AppState :=
  let fp := doc.file_paths.getD emptyFilePathsDoc
  let s := doc.settings.getD emptySettingsDoc
  { audio := fp.audio.getD ""
    cover := fp.cover.getD ""
    lrc := fp.lrc.getD ""
    background_anim := set_combo_text cat.bg st.background_anim s.background_anim
    text_anim := set_combo_text cat.text st.text_anim s.text_anim
    cover_anim := set_combo_text cat.cover st.cover_anim s.cover_anim
    hw_accel := set_combo_text cat.hw st.hw_accel s.hw_accel
    font_primary := set_combo_text cat.fonts st.font_primary s.font_primary
    font_secondary := set_combo_text cat.fonts st.font_secondary s.font_secondary
    font_size_primary := spin_setValue 10 300 (s.font_size_primary.getD 56)
    font_size_secondary := spin_setValue 10 300 (s.font_size_secondary.getD 48)
    outline_width := spin_setValue 0 20 (s.outline_width.getD 3)
    color_primary := truthy_overwrite st.color_primary s.color_primary
    color_secondary := truthy_overwrite st.color_secondary s.color_secondary
    outline_color := truthy_overwrite st.outline_color s.outline_color
    ffmpeg_path := truthy_overwrite st.ffmpeg_path s.ffmpeg_path }

/-- `AudioInfoWorker.run` line 47: the platform executable-name
convention for the probe tool. -/
def ffprobe_exe_name (isWin32 : Bool) : String :=
  if isWin32 then "ffprobe.exe" else "ffprobe"

/-- Model of `pathlib.Path(p).parent` for POSIX-style path strings. -/
def pathParentOf (p : String) : String :=
  let comps := (p.splitOn "/").filter (fun c => c ≠ "")
  let isAbs := "/".isPrefixOf p
  match comps.dropLast with
  | [] => if isAbs then "/" else "."
  | ds => (if isAbs then "/" else "") ++ String.intercalate "/" ds

/-- Model of `str(pathlib.Path(d) / name)` for POSIX-style paths. -/
def pathChildOf (d name : String) : String :=
  if d = "." then name
  else if d = "/" then "/" ++ name
  else d ++ "/" ++ name

/-- `AudioInfoWorker.run` lines 47-50: the probe tool path is the bare
executable name unless the configured engine path differs from the bare
default `'ffmpeg'`, in which case it is resolved inside the engine
path's parent directory. -/
def resolve_ffprobe (isWin32 : Bool) (ffmpeg_path : String) : String :=
  let ffprobe_exe := ffprobe_exe_name isWin32
  if ffmpeg_path ≠ "ffmpeg" then
    pathChildOf (pathParentOf ffmpeg_path) ffprobe_exe
  else ffprobe_exe

/-- Environment of one `AudioInfoWorker.run` execution: `run tool audio`
is the `subprocess.run(..., check=True, capture_output=True)` call —
`ok stdout`, or `error e` for any raised exception (tool missing,
non-zero exit); `floatParse` is Python `float(...)` — `ok` a parsed
value or `error e` for the `ValueError` text. -/
structure ProbeEnv where
  run : String → String → Except String String
  floatParse : String → Except String ℚ

/-- `AudioInfoWorker.run` (lines 45-59): resolves the probe tool path,
invokes it on the audio path, parses `float(result.stdout.strip())`,
and emits `finished(duration, "")`; any exception `e` is caught and
emits `finished(0, f"获取音频时长失败: {e}")`. Total: nothing raises
past this boundary. -/
def AudioInfoWorker.run (env : ProbeEnv) (isWin32 : Bool)
    (ffmpeg_path audio_path : String) : ℚ × String :=
  match env.run (resolve_ffprobe isWin32 ffmpeg_path) audio_path with
  | .error e => (0, "获取音频时长失败: " ++ e)
  | .ok stdout =>
    match env.floatParse stdout.trim with
    | .error e => (0, "获取音频时长失败: " ++ e)
    | .ok duration => (duration, "")

/-- A concrete probe environment in which the tool is missing. -/
def probeEnvToolMissing : ProbeEnv :=
  { run := fun _ _ => Except.error "[Errno 2] No such file or directory"
    floatParse := fun _ => Except.error "could not convert string to float" }

end LrcVideo

namespace LrcVideo

theorem deliveredFrom_cons (st : QtProglogLogger) (p : Int) (ps : List Int) :
    deliveredFrom st (p :: ps) =
      if p > st.last_percent then p :: deliveredFrom { last_percent := p } ps
      else deliveredFrom st ps := by
  by_cases h : p > st.last_percent <;>
    simp [deliveredFrom, progress_update, h]

theorem deliveredFrom_mem (st : QtProglogLogger) (ps : List Int) :
    ∀ q ∈ deliveredFrom st ps, st.last_percent < q ∧ q ∈ ps := by
  induction ps generalizing st with
  | nil => simp [deliveredFrom]
  | cons p ps ih =>
    intro q hq
    rw [deliveredFrom_cons] at hq
    by_cases h : p > st.last_percent
    · rw [if_pos h] at hq
      rcases List.mem_cons.mp hq with rfl | hmem
      · exact ⟨h, List.mem_cons_self _ _⟩
      · have := ih { last_percent := p } q hmem
        exact ⟨lt_trans h this.1, List.mem_cons_of_mem _ this.2⟩
    · rw [if_neg h] at hq
      have := ih st q hq
      exact ⟨this.1, List.mem_cons_of_mem _ this.2⟩

theorem deliveredFrom_pairwise (st : QtProglogLogger) (ps : List Int) :
    List.Pairwise (· < ·) (deliveredFrom st ps) := by
  induction ps generalizing st with
  | nil => simp [deliveredFrom]
  | cons p ps ih =>
    rw [deliveredFrom_cons]
    by_cases h : p > st.last_percent
    · rw [if_pos h]
      refine List.pairwise_cons.mpr ⟨?_, ih { last_percent := p }⟩
      intro q hq
      exact (deliveredFrom_mem { last_percent := p } ps q hq).1
    · rw [if_neg h]
      exact ih st

/-- C1: for every job, the delivered progress sequence is strictly
increasing and bounded in [0,100] (given engine reports in [0,100], the
range §4.3 of the spec declares for `progress(percent: 0..100)`); the
relay starts at `last_percent = -1`; `progress_update percent` forwards
`percent` exactly when `percent > last_percent` (updating
`last_percent`), and any `percent ≤ last_percent` is suppressed. -/
theorem relay_delivered_strictly_increasing_bounded (ps : List Int)
    (hb : ∀ p ∈ ps, 0 ≤ p ∧ p ≤ 100) :
    QtProglogLogger.init.last_percent = -1 ∧
    List.Pairwise (· < ·) (jobDelivered ps) ∧
    (∀ q ∈ jobDelivered ps, 0 ≤ q ∧ q ≤ 100) ∧
    (∀ st : QtProglogLogger, ∀ p : Int,
      (p > st.last_percent →
        progress_update st p = ({ last_percent := p }, some p)) ∧
      (p ≤ st.last_percent → progress_update st p = (st, none))) := by
  refine ⟨rfl, deliveredFrom_pairwise _ ps, ?_, ?_⟩
  · intro q hq
    exact hb q (deliveredFrom_mem _ ps q hq).2
  · intro st p
    constructor
    · intro h; simp [progress_update, h]
    · intro h; simp [progress_update, not_lt.mpr h]

/-- Witness for C1 at the concrete report sequence [0, 50, 50, 30, 100]. -/
theorem relay_delivered_strictly_increasing_bounded_witness :
    (∀ p ∈ [(0 : Int), 50, 50, 30, 100], 0 ≤ p ∧ p ≤ 100) ∧
    List.Pairwise (· < ·) (jobDelivered [0, 50, 50, 30, 100]) :=
  ⟨by decide,
   (relay_delivered_strictly_increasing_bounded [0, 50, 50, 30, 100]
     (by decide)).2.1⟩

/-- C5: every job constructs a fresh `QtProglogLogger`, whose
`last_percent` is -1; hence the second of two sequential jobs delivers a
sequence that does not depend on the first job at all, and two
sequential jobs whose engines each report 0 first both deliver 0 first. -/
theorem fresh_relay_per_job (ps1 ps1' ps2 qs1 qs2 : List Int) :
    QtProglogLogger.init.last_percent = -1 ∧
    (twoSequentialJobsDelivered ps1 ps2).2 =
      (twoSequentialJobsDelivered ps1' ps2).2 ∧
    (twoSequentialJobsDelivered ps1 ps2).2 = jobDelivered ps2 ∧
    (twoSequentialJobsDelivered (0 :: qs1) (0 :: qs2)).1.head? = some 0 ∧
    (twoSequentialJobsDelivered (0 :: qs1) (0 :: qs2)).2.head? = some 0 := by
  refine ⟨rfl, rfl, rfl, ?_, ?_⟩ <;>
    simp [twoSequentialJobsDelivered, deliveredFrom, progress_update,
      QtProglogLogger.init]

/-- C2: a preview job whose engine call returns normally but whose
output file is missing or zero-byte is delivered to the caller as a
failure (non-empty error message, classified as failure by
`on_preview_finished`), and the scratch artifact path is deleted after
completion whatever the file state was (the `os.remove` block runs in
both the success and the failure branch). -/
theorem preview_missing_or_empty_output_is_failure (env : PreviewEnv)
    (hok : env.engine = Except.ok ())
    (hbad : env.outputExists = false ∨ env.outputSize = 0) :
    on_preview_finished_is_failure (PreviewWorker.run env) = true ∧
    (PreviewWorker.run env).errorMessage ≠ "" ∧
    (∀ fileExists : Bool,
      on_preview_finished_fileExistsAfter true fileExists = false) := by
  obtain ⟨eng, ex, sz, pn⟩ := env
  cases eng with
  | error e => simp at hok
  | ok u =>
    have hrun : PreviewWorker.run ⟨Except.ok u, ex, sz, pn⟩ =
        { pixmapNull := true,
          errorMessage :=
            "生成预览时发生错误: " ++ "FFmpeg未能成功创建预览图片。" } := by
      rcases hbad with h | h <;> simp_all [PreviewWorker.run]
    refine ⟨?_, ?_, ?_⟩
    · rw [hrun]; simp [on_preview_finished_is_failure]
    · rw [hrun]; simp
    · intro fe; cases fe <;> simp [on_preview_finished_fileExistsAfter]

/-- Witness for C2: engine reports success, the output file exists but
has size zero. -/
theorem preview_missing_or_empty_output_is_failure_witness :
    (PreviewEnv.engine ⟨Except.ok (), true, 0, false⟩ = Except.ok () ∧
      PreviewEnv.outputSize ⟨Except.ok (), true, 0, false⟩ = 0) ∧
    on_preview_finished_is_failure
      (PreviewWorker.run ⟨Except.ok (), true, 0, false⟩) = true :=
  ⟨⟨rfl, rfl⟩,
   (preview_missing_or_empty_output_is_failure ⟨Except.ok (), true, 0, false⟩
     rfl (Or.inr rfl)).1⟩

/-- C3: for every exception raised during engine execution, both worker
`run` bodies catch it and convert it into a single terminal
human-readable failure message; `VideoWorker.run` and
`PreviewWorker.run` are total functions into the terminal-message types,
so the exception never propagates past the job boundary into the
caller's thread of control. -/
theorem engine_exception_converted_to_terminal_message
    (e : String) (ex pn : Bool) (sz : Nat) :
    VideoWorker.run (Except.error e) = "发生错误: " ++ e ∧
    PreviewWorker.run ⟨Except.error e, ex, sz, pn⟩ =
      { pixmapNull := true, errorMessage := "生成预览时发生错误: " ++ e } ∧
    VideoWorker.run (Except.ok ()) = "成功！视频已生成。" :=
  ⟨rfl, rfl, rfl⟩

/-- C9: `generation_finished` classifies a finished render job as
successful exactly when the terminal message text contains the
substring "成功" — its only input is the message, there is no status
code — and consequently a failure message that happens to contain
"成功" (here an engine exception mentioning a file named 成功作品.mp4)
is classified and reported as a success. -/
theorem generation_finished_classifies_by_success_substring :
    (∀ message : String,
      (generation_finished message).1 =
        charListHasSub message.data "成功".data) ∧
    generation_finished (VideoWorker.run (Except.ok ())) = (true, 100) ∧
    generation_finished (VideoWorker.run (Except.error "无法写入文件")) =
      (false, 0) ∧
    generation_finished
      (VideoWorker.run (Except.error "写入 成功作品.mp4 失败")) = (true, 100) := by
  refine ⟨?_, by decide, by decide, by decide⟩
  intro message
  by_cases h : charListHasSub message.data "成功".data <;>
    simp [generation_finished, h]

/-- C4: parameter compilation checks the three asset paths first, in
order audio, cover, lyric, reporting the first empty or non-existing
one by its name; then both font selections, reporting a missing one by
the expected font directory; otherwise it returns the fully populated
parameter record. In particular a missing audio file yields the
validation failure naming `音频` and `start_generation` never starts a
worker, so the engine is never invoked. -/
theorem gather_parameters_validation (font_dir : String) (st : AppState)
    (fs : String → Bool) :
    (st.audio = "" ∨ fs st.audio = false →
      gather_parameters font_dir st fs = .warnInvalid "音频" ∧
      ∀ (ok : Bool) (out : Option String),
        start_generation ok font_dir st fs out = none) ∧
    (¬(st.audio = "" ∨ fs st.audio = false) →
      st.cover = "" ∨ fs st.cover = false →
      gather_parameters font_dir st fs = .warnInvalid "封面") ∧
    (¬(st.audio = "" ∨ fs st.audio = false) →
      ¬(st.cover = "" ∨ fs st.cover = false) →
      st.lrc = "" ∨ fs st.lrc = false →
      gather_parameters font_dir st fs = .warnInvalid "歌词") ∧
    (¬(st.audio = "" ∨ fs st.audio = false) →
      ¬(st.cover = "" ∨ fs st.cover = false) →
      ¬(st.lrc = "" ∨ fs st.lrc = false) →
      st.font_primary = "" ∨ st.font_secondary = "" →
      gather_parameters font_dir st fs = .fontError font_dir) ∧
    (¬(st.audio = "" ∨ fs st.audio = false) →
      ¬(st.cover = "" ∨ fs st.cover = false) →
      ¬(st.lrc = "" ∨ fs st.lrc = false) →
      ¬(st.font_primary = "" ∨ st.font_secondary = "") →
      gather_parameters font_dir st fs = .params {
        audio_path := st.audio
        cover_path := st.cover
        lrc_path := st.lrc
        font_primary := font_dir ++ "/" ++ st.font_primary
        font_size_primary := st.font_size_primary
        font_secondary := font_dir ++ "/" ++ st.font_secondary
        font_size_secondary := st.font_size_secondary
        color_primary := st.color_primary
        color_secondary := st.color_secondary
        outline_color := st.outline_color
        outline_width := st.outline_width
        background_anim := st.background_anim
        text_anim := st.text_anim
        cover_anim := st.cover_anim
        ffmpeg_path := st.ffmpeg_path }) := by
  refine ⟨?_, ?_, ?_, ?_, ?_⟩
  · intro h
    have hg : gather_parameters font_dir st fs = .warnInvalid "音频" := by
      rw [gather_parameters, if_pos h]
    refine ⟨hg, ?_⟩
    intro ok out
    cases ok with
    | false => simp [start_generation]
    | true => simp [start_generation, hg]
  · intro h1 h2
    rw [gather_parameters, if_neg h1, if_pos h2]
  · intro h1 h2 h3
    rw [gather_parameters, if_neg h1, if_neg h2, if_pos h3]
  · intro h1 h2 h3 h4
    rw [gather_parameters, if_neg h1, if_neg h2, if_neg h3, if_pos h4]
  · intro h1 h2 h3 h4
    rw [gather_parameters, if_neg h1, if_neg h2, if_neg h3, if_neg h4]

/-- Witness for C4: a state whose audio path is empty is rejected with
the failure naming `音频`, and no worker is started. -/
theorem gather_parameters_validation_witness :
    ("" = "" ∨ (fun _ : String => true) "" = false) ∧
    gather_parameters "/app/font"
      ⟨"", "/m/c.jpg", "/m/l.lrc", "a.ttf", "a.ttf", 56, 48, "#FFFFFF",
        "#DDDDDD", "#000000", 3, "ffmpeg", "B", "T", "C", "H"⟩
      (fun _ => true) = .warnInvalid "音频" ∧
    start_generation true "/app/font"
      ⟨"", "/m/c.jpg", "/m/l.lrc", "a.ttf", "a.ttf", 56, 48, "#FFFFFF",
        "#DDDDDD", "#000000", 3, "ffmpeg", "B", "T", "C", "H"⟩
      (fun _ => true) (some "/out.mp4") = none := by
  have h := (gather_parameters_validation "/app/font"
    ⟨"", "/m/c.jpg", "/m/l.lrc", "a.ttf", "a.ttf", 56, 48, "#FFFFFF",
      "#DDDDDD", "#000000", 3, "ffmpeg", "B", "T", "C", "H"⟩
    (fun _ => true)).1 (Or.inl rfl)
  exact ⟨Or.inl rfl, h.1, h.2 true (some "/out.mp4")⟩

theorem set_combo_text_mem (items : List String) (current : String)
    (text : Option String) (h : current ∈ items) :
    set_combo_text items current text ∈ items := by
  cases text with
  | none => exact h
  | some t =>
    rw [set_combo_text]
    split
    · exact (by assumption : t ≠ "" ∧ t ∈ items).2
    · exact h

/-- C10: `_set_combo_text` keeps the prior selection (raising no error)
whenever the supplied value is absent, empty, or not among the combo's
items; consequently a selection that starts in its catalog stays in the
catalog after any single update and after any sequence of loaded
values. -/
theorem combo_selection_stays_in_catalog (items : List String)
    (current t : String) (texts : List (Option String))
    (hcur : current ∈ items) :
    set_combo_text items current none = current ∧
    set_combo_text items current (some "") = current ∧
    (t ∉ items → set_combo_text items current (some t) = current) ∧
    (∀ o : Option String, set_combo_text items current o ∈ items) ∧
    texts.foldl (set_combo_text items) current ∈ items := by
  refine ⟨rfl, by simp [set_combo_text], ?_, ?_, ?_⟩
  · intro ht
    simp [set_combo_text, ht]
  · intro o
    exact set_combo_text_mem items current o hcur
  · induction texts generalizing current with
    | nil => exact hcur
    | cons o os ih =>
      exact ih (set_combo_text items current o) (set_combo_text_mem _ _ _ hcur)

/-- Witness for C10 with a concrete two-item catalog and a load sequence
containing an absent, an empty, a foreign and a valid value. -/
theorem combo_selection_stays_in_catalog_witness :
    "A" ∈ ["A", "B"] ∧
    "Z" ∉ ["A", "B"] ∧
    set_combo_text ["A", "B"] "A" (some "Z") = "A" ∧
    [none, some "", some "Z", some "B"].foldl (set_combo_text ["A", "B"])
      "A" ∈ ["A", "B"] := by
  have h := combo_selection_stays_in_catalog ["A", "B"] "A" "Z"
    [none, some "", some "Z", some "B"] (by decide)
  exact ⟨by decide, by decide, h.2.2.1 (by decide), h.2.2.2.2⟩

/-- C8: the duration probe never raises past its boundary: any failure
of the tool invocation or of float parsing yields `(0, m)` with `m` a
non-empty message, success yields the parsed duration with an empty
error string, and the probe tool path is the engine path's parent
directory joined with the platform executable name whenever the engine
path is not the bare default `"ffmpeg"`. -/
theorem audio_probe_contract (env : ProbeEnv) (isWin32 : Bool)
    (ffmpeg_path audio_path : String) :
    ((AudioInfoWorker.run env isWin32 ffmpeg_path audio_path).2 ≠ "" →
      (AudioInfoWorker.run env isWin32 ffmpeg_path audio_path).1 = 0) ∧
    (∀ e, env.run (resolve_ffprobe isWin32 ffmpeg_path) audio_path =
        Except.error e →
      AudioInfoWorker.run env isWin32 ffmpeg_path audio_path =
        (0, "获取音频时长失败: " ++ e) ∧
      "获取音频时长失败: " ++ e ≠ "") ∧
    (∀ stdout e,
      env.run (resolve_ffprobe isWin32 ffmpeg_path) audio_path =
        Except.ok stdout →
      env.floatParse stdout.trim = Except.error e →
      AudioInfoWorker.run env isWin32 ffmpeg_path audio_path =
        (0, "获取音频时长失败: " ++ e) ∧
      "获取音频时长失败: " ++ e ≠ "") ∧
    (∀ stdout d,
      env.run (resolve_ffprobe isWin32 ffmpeg_path) audio_path =
        Except.ok stdout →
      env.floatParse stdout.trim = Except.ok d →
      AudioInfoWorker.run env isWin32 ffmpeg_path audio_path = (d, "")) ∧
    (ffmpeg_path ≠ "ffmpeg" →
      resolve_ffprobe isWin32 ffmpeg_path =
        pathChildOf (pathParentOf ffmpeg_path) (ffprobe_exe_name isWin32)) ∧
    resolve_ffprobe isWin32 "ffmpeg" = ffprobe_exe_name isWin32 := by
  have hne : ∀ e : String, "获取音频时长失败: " ++ e ≠ "" := by
    intro e h
    obtain ⟨le⟩ := e
    have h2 : "获取音频时长失败: ".data ++ le = List.nil :=
      congrArg String.data h
    have h3 := List.append_eq_nil.mp h2
    exact absurd h3.1 (by decide)
  refine ⟨?_, ?_, ?_, ?_, ?_, ?_⟩
  · intro h
    cases henv : env.run (resolve_ffprobe isWin32 ffmpeg_path) audio_path with
    | error e => simp [AudioInfoWorker.run, henv]
    | ok stdout =>
      cases hp : env.floatParse stdout.trim with
      | error e => simp [AudioInfoWorker.run, henv, hp]
      | ok d => simp [AudioInfoWorker.run, henv, hp] at h
  · intro e he
    refine ⟨?_, hne e⟩
    simp [AudioInfoWorker.run, he]
  · intro stdout e hok hp
    refine ⟨?_, hne e⟩
    simp [AudioInfoWorker.run, hok, hp]
  · intro stdout d hok hp
    simp [AudioInfoWorker.run, hok, hp]
  · intro h
    rw [resolve_ffprobe, if_pos h]
  · rfl

/-- Witness for C8: the tool is missing and the configured engine path
is a non-default absolute path. -/
theorem audio_probe_contract_witness :
    probeEnvToolMissing.run (resolve_ffprobe false "/opt/ff/ffmpeg")
        "/m/a.mp3" =
      Except.error "[Errno 2] No such file or directory" ∧
    AudioInfoWorker.run probeEnvToolMissing false "/opt/ff/ffmpeg"
        "/m/a.mp3" =
      (0, "获取音频时长失败: " ++ "[Errno 2] No such file or directory") ∧
    ("/opt/ff/ffmpeg" : String) ≠ "ffmpeg" ∧
    resolve_ffprobe false "/opt/ff/ffmpeg" =
      pathChildOf (pathParentOf "/opt/ff/ffmpeg") (ffprobe_exe_name false) := by
  have h := audio_probe_contract probeEnvToolMissing false "/opt/ff/ffmpeg"
    "/m/a.mp3"
  exact ⟨rfl,
    (h.2.1 "[Errno 2] No such file or directory" rfl).1,
    by decide,
    h.2.2.2.2.1 (by decide)⟩

/-- C6: saving the project document and loading it back restores the
state exactly, for any state (the spin values must lie in the widgets'
configured ranges — 10..300 for font sizes, 0..20 for outline width —
which `QSpinBox` guarantees for values it holds). -/
theorem load_save_roundtrip (cat : Catalogs) (st : AppState)
    (hs1 : 10 ≤ st.font_size_primary ∧ st.font_size_primary ≤ 300)
    (hs2 : 10 ≤ st.font_size_secondary ∧ st.font_size_secondary ≤ 300)
    (how : 0 ≤ st.outline_width ∧ st.outline_width ≤ 20) :
    load_project cat (save_project st) st = st := by
  obtain ⟨au, cv, lr, f1, f2, s1, s2, c1, c2, oc, ow, ffp, bg, tx, ca, hw⟩ := st
  dsimp only at hs1 hs2 how
  simp only [load_project, save_project, Option.getD_some, set_combo_text,
    truthy_overwrite, spin_setValue, ite_self, AppState.mk.injEq]
  repeat' apply And.intro
  all_goals first
    | trivial
    | (simp only [max_def, min_def]
       split_ifs <;> omega)

/-- Witness for C6 at a fully populated concrete state. -/
theorem load_save_roundtrip_witness :
    ((10 : Int) ≤ 56 ∧ (56 : Int) ≤ 300) ∧
    load_project ⟨["B"], ["T"], ["C"], ["H"], ["a.ttf"]⟩
      (save_project
        ⟨"/m/a.mp3", "/m/c.jpg", "/m/l.lrc", "a.ttf", "a.ttf", 56, 48,
          "#FFFFFF", "#DDDDDD", "#000000", 3, "/opt/ff/ffmpeg", "B", "T",
          "C", "H"⟩)
      ⟨"/m/a.mp3", "/m/c.jpg", "/m/l.lrc", "a.ttf", "a.ttf", 56, 48,
        "#FFFFFF", "#DDDDDD", "#000000", 3, "/opt/ff/ffmpeg", "B", "T",
        "C", "H"⟩ =
      ⟨"/m/a.mp3", "/m/c.jpg", "/m/l.lrc", "a.ttf", "a.ttf", 56, 48,
        "#FFFFFF", "#DDDDDD", "#000000", 3, "/opt/ff/ffmpeg", "B", "T",
        "C", "H"⟩ :=
  ⟨by decide,
   load_save_roundtrip ⟨["B"], ["T"], ["C"], ["H"], ["a.ttf"]⟩ _
     (by decide) (by decide) (by decide)⟩

/-- Counterexample to C7 as stated: the key `font_size_primary` is
absent from the document (its `settings` object is empty), the pre-load
value is 70, yet after loading the field is 56, not its pre-load
value. -/
theorem load_absent_key_counterexample :
    (load_project ⟨["B"], ["T"], ["C"], ["H"], ["F"]⟩
      { version := none, file_paths := none,
        settings := some emptySettingsDoc }
      ⟨"", "", "", "F", "F", 70, 48, "#FFFFFF", "#DDDDDD", "#000000", 3,
        "ffmpeg", "B", "T", "C", "H"⟩).font_size_primary ≠ (70 : Int) := by
  decide

/-- C7 amended: for keys present in the document, a combo value
overwrites when it is non-empty and in the catalog, a numeric value
overwrites (clamped to the widget range), and a color / engine-path
value overwrites when non-empty; for absent keys, the combo selections,
colors and engine path keep their pre-load values, but the numeric
fields are reset to the fixed defaults 56, 48 and 3, and the asset-path
mapping is replaced wholesale by the document's mapping (roles absent
from the document become empty). -/
theorem load_project_merge_semantics (cat : Catalogs)
    (doc : ProjectDocument) (st : AppState) :
    ((doc.settings.getD emptySettingsDoc).background_anim = none →
      (load_project cat doc st).background_anim = st.background_anim) ∧
    ((doc.settings.getD emptySettingsDoc).text_anim = none →
      (load_project cat doc st).text_anim = st.text_anim) ∧
    ((doc.settings.getD emptySettingsDoc).cover_anim = none →
      (load_project cat doc st).cover_anim = st.cover_anim) ∧
    ((doc.settings.getD emptySettingsDoc).hw_accel = none →
      (load_project cat doc st).hw_accel = st.hw_accel) ∧
    ((doc.settings.getD emptySettingsDoc).font_primary = none →
      (load_project cat doc st).font_primary = st.font_primary) ∧
    ((doc.settings.getD emptySettingsDoc).font_secondary = none →
      (load_project cat doc st).font_secondary = st.font_secondary) ∧
    ((doc.settings.getD emptySettingsDoc).color_primary = none →
      (load_project cat doc st).color_primary = st.color_primary) ∧
    ((doc.settings.getD emptySettingsDoc).color_secondary = none →
      (load_project cat doc st).color_secondary = st.color_secondary) ∧
    ((doc.settings.getD emptySettingsDoc).outline_color = none →
      (load_project cat doc st).outline_color = st.outline_color) ∧
    ((doc.settings.getD emptySettingsDoc).ffmpeg_path = none →
      (load_project cat doc st).ffmpeg_path = st.ffmpeg_path) ∧
    ((doc.settings.getD emptySettingsDoc).font_size_primary = none →
      (load_project cat doc st).font_size_primary = 56) ∧
    ((doc.settings.getD emptySettingsDoc).font_size_secondary = none →
      (load_project cat doc st).font_size_secondary = 48) ∧
    ((doc.settings.getD emptySettingsDoc).outline_width = none →
      (load_project cat doc st).outline_width = 3) ∧
    ((load_project cat doc st).audio =
      ((doc.file_paths.getD emptyFilePathsDoc).audio.getD "") ∧
     (load_project cat doc st).cover =
      ((doc.file_paths.getD emptyFilePathsDoc).cover.getD "") ∧
     (load_project cat doc st).lrc =
      ((doc.file_paths.getD emptyFilePathsDoc).lrc.getD "")) ∧
    (∀ t, t ≠ "" → t ∈ cat.bg →
      (doc.settings.getD emptySettingsDoc).background_anim = some t →
      (load_project cat doc st).background_anim = t) ∧
    (∀ v : Int, 10 ≤ v → v ≤ 300 →
      (doc.settings.getD emptySettingsDoc).font_size_primary = some v →
      (load_project cat doc st).font_size_primary = v) ∧
    (∀ c, c ≠ "" →
      (doc.settings.getD emptySettingsDoc).color_primary = some c →
      (load_project cat doc st).color_primary = c) ∧
    (∀ v, v ≠ "" →
      (doc.settings.getD emptySettingsDoc).ffmpeg_path = some v →
      (load_project cat doc st).ffmpeg_path = v) := by
  refine ⟨?_, ?_, ?_, ?_, ?_, ?_, ?_, ?_, ?_, ?_, ?_, ?_, ?_,
    ⟨rfl, rfl, rfl⟩, ?_, ?_, ?_, ?_⟩
  · intro h; simp [load_project, set_combo_text, h]
  · intro h; simp [load_project, set_combo_text, h]
  · intro h; simp [load_project, set_combo_text, h]
  · intro h; simp [load_project, set_combo_text, h]
  · intro h; simp [load_project, set_combo_text, h]
  · intro h; simp [load_project, set_combo_text, h]
  · intro h; simp [load_project, truthy_overwrite, h]
  · intro h; simp [load_project, truthy_overwrite, h]
  · intro h; simp [load_project, truthy_overwrite, h]
  · intro h; simp [load_project, truthy_overwrite, h]
  · intro h; simp [load_project, spin_setValue, h]
  · intro h; simp [load_project, spin_setValue, h]
  · intro h; simp [load_project, spin_setValue, h]
  · intro t ht hmem h
    simp [load_project, set_combo_text, h, ht, hmem]
  · intro v h10 h300 h
    simp only [load_project, spin_setValue, h, Option.getD_some]
    omega
  · intro c hc h
    simp [load_project, truthy_overwrite, h, hc]
  · intro v hv h
    simp [load_project, truthy_overwrite, h, hv]

/-- Witness for C7 (amended) at a concrete document that supplies a
valid background animation and omits the primary font size. -/
theorem load_project_merge_semantics_witness :
    ((some "B2" : Option String) = some "B2" ∧ ("B2" : String) ≠ "" ∧
      "B2" ∈ ["B", "B2"]) ∧
    (load_project ⟨["B", "B2"], ["T"], ["C"], ["H"], ["F"]⟩
      { version := some 3, file_paths := none,
        settings := some { emptySettingsDoc with background_anim := some "B2" } }
      ⟨"", "", "", "F", "F", 70, 48, "#FFFFFF", "#DDDDDD", "#000000", 3,
        "ffmpeg", "B", "T", "C", "H"⟩).background_anim = "B2" ∧
    (load_project ⟨["B", "B2"], ["T"], ["C"], ["H"], ["F"]⟩
      { version := some 3, file_paths := none,
        settings := some { emptySettingsDoc with background_anim := some "B2" } }
      ⟨"", "", "", "F", "F", 70, 48, "#FFFFFF", "#DDDDDD", "#000000", 3,
        "ffmpeg", "B", "T", "C", "H"⟩).font_size_primary = 56 := by
  have h := load_project_merge_semantics
    ⟨["B", "B2"], ["T"], ["C"], ["H"], ["F"]⟩
    { version := some 3, file_paths := none,
      settings := some { emptySettingsDoc with background_anim := some "B2" } }
    ⟨"", "", "", "F", "F", 70, 48, "#FFFFFF", "#DDDDDD", "#000000", 3,
      "ffmpeg", "B", "T", "C", "H"⟩
  refine ⟨⟨rfl, by decide, by decide⟩, ?_, ?_⟩
  · exact h.2.2.2.2.2.2.2.2.2.2.2.2.2.2.1 "B2" (by decide) (by decide) rfl
  · exact h.2.2.2.2.2.2.2.2.2.2.1 rfl

end LrcVideo
